import Mathlib

/-!
Shallow embedding of the date/time formatting and parsing core of the
repository (src/source/date): the format-string interpreter
Parser::ParseFormat, the fixed-width date-string decoder Parser::ParseDate,
the padding helper Parser::formatTwoDigits (parser.cpp), and the name
tables of day.hpp and month.hpp.

Modelling conventions:
- The read-only ClockInterface (clockInterface.hpp) becomes a structure
  whose fields are the eight getters.  The integer getters are modelled as
  Nat, matching the CalendarTime invariants (all fields nonnegative).
- C++ exceptions are modelled with Option / Except: a propagated exception
  is none (formatter) or Except.error () (decoder).  The nullptr return of
  ParseDate is Except.ok none.
- ParseDate returns the broken-down tm record that the source hands to
  mktime; the final mktime / timespec conversion reads the ambient
  timezone and is an external collaborator outside the embedding, and
  tv_nsec is the constant 0.
- std::to_string on a nonnegative int is the decimal digit string
  (cppToString below); std::stoi is stoiCpp, which skips
  leading spaces, reads an optional sign and then a digit prefix, and
  fails (std::invalid_argument) when no digit is found.  std::out_of_range
  cannot occur in ParseDate because every converted slice has at most 4
  characters.
-/

/-- Model of clockInterface.hpp: one field per virtual getter.  Fields are
Nat because every getter of a valid clock yields a nonnegative value. -/
structure ClockInterface where
  getYear : Nat
  getMonth : Nat
  getDay : Nat
  getHour : Nat
  getMin : Nat
  getSec : Nat
  getDayOfTheWeek : Nat
  getTimeZone : String

/-- Model of getShortDayName (day.hpp): shortNames.at(day); the at call
throws out_of_range for day outside 0..6, modelled by none. -/
def getShortDayName (day : Nat) : Option String :=
  [ "Sun", "Mon", "Tue", "Wed", "Thu", "Fri", "Sat"].get? day

/-- Model of getLongDayName (day.hpp). -/
def getLongDayName (day : Nat) : Option String :=
  [ "Sunday", "Monday", "Tuesday", "Wednesday", "Thursday", "Friday", "Saturday"].get? day

/-- Model of getShortMonthName (month.hpp): index 0 is January. -/
def getShortMonthName (month : Nat) : Option String :=
  [ "Jan", "Feb", "Mar", "Apr", "May", "Jun", "Jul", "Aug", "Sep", "Oct", "Nov", "Dec"].get? month

/-- Model of getLongMonthName (month.hpp). -/
def getLongMonthName (month : Nat) : Option String :=
  [ "January", "February", "March", "April", "May", "June", "July", "August",
    "September", "October", "November", "December"].get? month

/-- Model of std::to_string on a nonnegative int: its decimal digit
string, which is exactly Nat.repr. -/
def cppToString (n : Nat) : String :=
  Nat.repr n

/-- Model of Parser::formatTwoDigits (parser.cpp): oss with setw(2) and
setfill of the zero character pads the decimal representation on the left
with zeros up to width 2; longer representations are unchanged. -/
def formatTwoDigits (value : Nat) : String :=
  String.mk (List.replicate (2 - (cppToString value).length) '0') ++ cppToString value

/-- Model of the loop body of Parser::ParseFormat (parser.cpp lines 55-161),
processing the remaining characters of the template.  The directive switch
becomes an equality chain on the character after the percent sign, one
branch per case label.  The cases with a TODO comment (I, j, p, u, w, z)
break without advancing i past the directive letter, so the letter is
reprocessed as an ordinary character on the next iteration; the case for
the letter r has no break and falls through into the arm for R.  The
default arm appends the percent character itself and also leaves the
following character to the next iteration.  A character outside a
directive is copied unless it is the plus character, which is skipped.
A thrown exception (name-table at, or the short-year substr with a
1-character year) aborts the whole call: result none. -/
def parseFormatGo (clock : ClockInterface) : List Char → Option String
  | [] => some ("")
  | [c] =>
      (parseFormatGo clock []).map fun t =>
        (if c = '+' then "" else String.singleton c) ++ t
  | c :: c2 :: rest =>
      if c = '%' then
        if c2 = 'a' then
          (getShortDayName clock.getDayOfTheWeek).bind fun name =>
            (parseFormatGo clock rest).map fun t => name ++ t
        else if c2 = 'A' then
          (getLongDayName clock.getDayOfTheWeek).bind fun name =>
            (parseFormatGo clock rest).map fun t => name ++ t
        else if c2 = 'b' then
          (getShortMonthName clock.getMonth).bind fun name =>
            (parseFormatGo clock rest).map fun t => name ++ t
        else if c2 = 'B' then
          (getLongMonthName clock.getMonth).bind fun name =>
            (parseFormatGo clock rest).map fun t => name ++ t
        else if c2 = 'd' then
          (parseFormatGo clock rest).map fun t => formatTwoDigits clock.getDay ++ t
        else if c2 = 'e' then
          (parseFormatGo clock rest).map fun t => cppToString clock.getDay ++ t
        else if c2 = 'H' then
          (parseFormatGo clock rest).map fun t => formatTwoDigits clock.getHour ++ t
        else if c2 = 'I' then parseFormatGo clock (c2 :: rest)
        else if c2 = 'j' then parseFormatGo clock (c2 :: rest)
        else if c2 = 'm' then
          (parseFormatGo clock rest).map fun t => formatTwoDigits clock.getMonth ++ t
        else if c2 = 'M' then
          (parseFormatGo clock rest).map fun t => formatTwoDigits clock.getMin ++ t
        else if c2 = 'p' then parseFormatGo clock (c2 :: rest)
        else if c2 = 'r' ∨ c2 = 'R' then
          (parseFormatGo clock rest).map fun t =>
            formatTwoDigits clock.getHour ++ ":" ++ formatTwoDigits clock.getMin ++ t
        else if c2 = 'S' then
          (parseFormatGo clock rest).map fun t => formatTwoDigits clock.getSec ++ t
        else if c2 = 'T' then
          (parseFormatGo clock rest).map fun t =>
            formatTwoDigits clock.getHour ++ ":" ++ formatTwoDigits clock.getMin ++ ":" ++
              formatTwoDigits clock.getSec ++ t
        else if c2 = 'u' then parseFormatGo clock (c2 :: rest)
        else if c2 = 'w' then parseFormatGo clock (c2 :: rest)
        else if c2 = 'y' then
          let ys := cppToString clock.getYear
          if ys.length < 2 then none
          else (parseFormatGo clock rest).map fun t => ys.drop (ys.length - 2) ++ t
        else if c2 = 'Y' then
          (parseFormatGo clock rest).map fun t => cppToString clock.getYear ++ t
        else if c2 = 'z' then parseFormatGo clock (c2 :: rest)
        else if c2 = 'Z' then
          (parseFormatGo clock rest).map fun t => clock.getTimeZone ++ t
        else if c2 = '%' then
          (parseFormatGo clock rest).map fun t => "%" ++ t
        else
          (parseFormatGo clock (c2 :: rest)).map fun t => "%" ++ t
      else
        (parseFormatGo clock (c2 :: rest)).map fun t =>
          (if c = '+' then "" else String.singleton c) ++ t

/-- Model of Parser::ParseFormat: run the loop over the characters of the
template and append the final newline. -/
def ParseFormat (argument : String) (clock : ClockInterface) : Option String :=
  (parseFormatGo clock argument.data).map fun s => s ++ "\n"

/-- Space test of std::isspace in the default locale. -/
def isSpaceCpp (c : Char) : Bool :=
  c == ' ' || c == '\t' || c == '\n' || c == Char.ofNat 11 || c == Char.ofNat 12 || c == '\r'

/-- Numeric value of a list of decimal digit characters. -/
def digitsToNat (ds : List Char) : Nat :=
  ds.foldl (fun a c => 10 * a + (c.toNat - 48)) 0

/-- Model of std::stoi: skip leading whitespace, read an optional sign,
then the longest digit prefix; with no digit the call throws
std::invalid_argument, modelled by Except.error. -/
def stoiCpp (s : String) : Except Unit Int :=
  match s.data.dropWhile isSpaceCpp with
  | '-' :: r =>
      let ds := r.takeWhile Char.isDigit
      if ds.isEmpty then Except.error () else Except.ok (-(digitsToNat ds : Int))
  | '+' :: r =>
      let ds := r.takeWhile Char.isDigit
      if ds.isEmpty then Except.error () else Except.ok (digitsToNat ds)
  | r =>
      let ds := r.takeWhile Char.isDigit
      if ds.isEmpty then Except.error () else Except.ok (digitsToNat ds)

/-- Model of std::string substr(pos, count).  Every call site in ParseDate
is guarded so that pos never exceeds the length, hence the out_of_range
throw of substr cannot fire and a total function is faithful. -/
def substrCpp (s : String) (pos count : Nat) : String :=
  String.mk ((s.data.drop pos).take count)

/-- The fields of struct tm that Parser::ParseDate assigns (the remaining
fields stay zero-initialized and are never read before mktime). -/
structure Tm where
  tm_sec : Int
  tm_min : Int
  tm_hour : Int
  tm_mday : Int
  tm_mon : Int
  tm_year : Int
deriving DecidableEq, Repr

/-- Model of Parser::ParseDate (parser.cpp lines 168-265).  Result values:
Except.ok none is the nullptr return for a spec shorter than 7;
Except.error () is a std::invalid_argument exception propagating out of a
stoi call; Except.ok (some t) is a successful decode, where t is the tm
record handed to mktime.  The six stoi calls run in source order and the
first failure aborts the call.  The year slice is read only when the
length exceeds 7 and the second slice only when the length exceeds 14 and
the character at offset 12 is a dot; otherwise the corresponding string
stays empty and its stoi throws. -/
def ParseDate (argument : String) : Except Unit (Option Tm) :=
  if argument.length < 7 then Except.ok none
  else
    match stoiCpp (substrCpp argument 0 2) with
    | Except.error e => Except.error e
    | Except.ok month =>
      match stoiCpp (substrCpp argument 2 2) with
      | Except.error e => Except.error e
      | Except.ok day =>
        match stoiCpp (substrCpp argument 4 2) with
        | Except.error e => Except.error e
        | Except.ok hour =>
          match stoiCpp (substrCpp argument 6 2) with
          | Except.error e => Except.error e
          | Except.ok minute =>
            match stoiCpp (if 7 < argument.length then substrCpp argument 8 4 else "") with
            | Except.error e => Except.error e
            | Except.ok year =>
              match stoiCpp (if 14 < argument.length ∧ argument.data.get? 12 = some '.'
                  then substrCpp argument 13 2 else "") with
              | Except.error e => Except.error e
              | Except.ok second =>
                Except.ok (some
                  { tm_sec := if 0 < second ∧ second ≤ 60 then second else 0
                  , tm_min := if 0 < minute ∧ minute ≤ 60 then minute else 0
                  , tm_hour := if 0 < hour ∧ hour ≤ 24 then hour else 0
                  , tm_mday := if 0 < day ∧ day ≤ 31 then day else 0
                  , tm_mon := if 0 < month ∧ month ≤ 12 then month - 1 else 0
                  , tm_year := year - 1900 })

/-- A concrete clock used to instantiate universal statements: the fixed
scenario of the spec (Thursday, December 26, 19:45:00, MSK, 1991). -/
def sampleClock : ClockInterface :=
  { getYear := 1991
  , getMonth := 11
  , getDay := 26
  , getHour := 19
  , getMin := 45
  , getSec := 0
  , getDayOfTheWeek := 4
  , getTimeZone := "MSK" }

/-- Appending the empty string on the right is the identity. -/
theorem strAppendEmpty (s : String) : s ++ "" = s := by
  cases s with
  | mk l => exact congrArg String.mk (List.append_nil l)

/-- String append is associative. -/
theorem strAppendAssoc (a b c : String) : a ++ b ++ c = a ++ (b ++ c) := by
  cases a with
  | mk x =>
    cases b with
    | mk y =>
      cases c with
      | mk z => exact congrArg String.mk (List.append_assoc x y z)

/-- The digit accumulator of Nat.repr grows the accumulated list by at
least one character whenever any fuel is left. -/
theorem toDigitsCore_length_lower (f : Nat) :
    ∀ (m : Nat) (tl : List Char),
      tl.length + 1 ≤ (Nat.toDigitsCore 10 (f + 1) m tl).length := by
  induction f with
  | zero =>
    intro m tl
    simp only [Nat.toDigitsCore]
    split
    · simp
    · simp [Nat.toDigitsCore]
  | succ f ih =>
    intro m tl
    simp only [Nat.toDigitsCore]
    split
    · simp
    · calc tl.length + 1 ≤ (Nat.digitChar (m % 10) :: tl).length + 1 := by simp
        _ ≤ _ := ih (m / 10) (Nat.digitChar (m % 10) :: tl)

/-- A Nat below 10 has a 1-character decimal string. -/
theorem cppToString_length_of_lt (n : Nat) (h : n < 10) : (cppToString n).length = 1 := by
  rw [cppToString]
  interval_cases n <;> rfl

/-- A Nat of at least 10 has a decimal string of at least 2 characters. -/
theorem cppToString_two_le_of_ge (n : Nat) (h : 10 ≤ n) : 2 ≤ (cppToString n).length := by
  rw [cppToString]
  simp only [Nat.repr, Nat.toDigits, String.length, List.asString]
  simp only [Nat.toDigitsCore]
  rw [if_neg (by omega)]
  have h2 : n - 1 + 1 = n := by omega
  calc (2 : Nat) = [Nat.digitChar (n % 10)].length + 1 := by simp
    _ ≤ _ := h2 ▸ toDigitsCore_length_lower (n - 1) (n / 10) [Nat.digitChar (n % 10)]

/-- A character other than the percent sign is consumed as a literal: it is
copied to the output unless it is the plus character, which is skipped. -/
theorem parseFormatGo_literal (clock : ClockInterface) (c : Char) (rest : List Char)
    (hc : c ≠ '%') :
    parseFormatGo clock (c :: rest) =
      ((parseFormatGo clock rest).map fun t =>
        (if c = '+' then "" else String.singleton c) ++ t) := by
  cases rest with
  | nil => rfl
  | cons c2 r => simp [parseFormatGo, hc]

/-- A character other than the percent sign (or a percent sign in final
position, handled separately) is consumed as a literal: it is copied to
the output unless it is the plus character, which is skipped. -/
theorem parseFormatGo_default (clock : ClockInterface) (c2 : Char) (rest : List Char)
    (hc : ¬ c2 ∈ ['a', 'A', 'b', 'B', 'd', 'e', 'H', 'I', 'j', 'm', 'M', 'p', 'r', 'R', 'S', 'T', 'u', 'w', 'y', 'Y', 'z', 'Z', '%']) :
    parseFormatGo clock ('%' :: c2 :: rest) =
      ((parseFormatGo clock (c2 :: rest)).map fun t => "%" ++ t) := by
  simp only [List.mem_cons, not_or] at hc
  obtain ⟨h1, h2, h3, h4, h5, h6, h7, h8, h9, h10, h11, h12, h13, h14, h15, h16, h17,
    h18, h19, h20, h21, h22, h23, -⟩ := hc
  simp [parseFormatGo, h1, h2, h3, h4, h5, h6, h7, h8, h9, h10, h11, h12, h13, h14,
    h15, h16, h17, h18, h19, h20, h21, h22, h23]

/-- Claim C9: rendering the directive given by percent and the lowercase
letter r produces exactly the same output as the uppercase R directive,
because the switch case for the lowercase letter has no break and falls
through into the uppercase case, emitting zero-padded hour, a colon, and
zero-padded minute. -/
theorem parseFormat_r_equals_R (clock : ClockInterface) (rest : List Char) :
    parseFormatGo clock ('%' :: 'r' :: rest) = parseFormatGo clock ('%' :: 'R' :: rest) := by
  simp [parseFormatGo]

/-- Claim C8: the formatter implements a numeric month directive (percent
followed by lowercase m) that renders the 0-based month index of the clock
zero-padded to width 2 — January (index 0) renders as 00 and December
(index 11) as 11 — instead of passing the two characters through as an
unknown directive. -/
theorem parseFormat_month_directive (clock : ClockInterface) (rest : List Char) :
    parseFormatGo clock ('%' :: 'm' :: rest) =
      ((parseFormatGo clock rest).map fun t => formatTwoDigits clock.getMonth ++ t)
    ∧ formatTwoDigits 0 = "00" ∧ formatTwoDigits 11 = "11" := by
  refine ⟨by simp [parseFormatGo], by decide, by decide⟩

/-- Claim C7: the combined directives are atomic and extensionally equal
to the concatenation of their sub-fields: rendering the T directive equals
rendering H, a colon, M, a colon, and S; rendering the R directive equals
rendering H, a colon, and M; and the two-digit formatter pads to width 2
(its output length is the maximum of 2 and the decimal length). -/
theorem parseFormat_combined_directives_atomic (clock : ClockInterface) :
    (parseFormatGo clock ['%', 'T'] =
      ((parseFormatGo clock ['%', 'H']).bind fun a =>
        (parseFormatGo clock ['%', 'M']).bind fun b =>
          (parseFormatGo clock ['%', 'S']).map fun c => a ++ ":" ++ b ++ ":" ++ c))
    ∧ (parseFormatGo clock ['%', 'R'] =
      ((parseFormatGo clock ['%', 'H']).bind fun a =>
        (parseFormatGo clock ['%', 'M']).map fun b => a ++ ":" ++ b))
    ∧ ∀ n : Nat, (formatTwoDigits n).length = max 2 (cppToString n).length := by
  refine ⟨?_, ?_, ?_⟩
  · simp [parseFormatGo, strAppendEmpty, strAppendAssoc]
  · simp [parseFormatGo, strAppendEmpty, strAppendAssoc]
  · intro n
    rw [formatTwoDigits]
    generalize cppToString n = s
    cases s with
    | mk l =>
      show (List.replicate (2 - l.length) '0' ++ l).length = max 2 l.length
      simp [List.length_append, List.length_replicate]
      omega

/-- Claim C4, counterexample: an unsupported directive is not a silent
no-op consuming two characters.  Rendering the day-of-year directive
emits the letter j itself, and the lowercase r directive renders like the
uppercase R directive rather than emitting nothing. -/
theorem parseFormat_unsupported_counterexample :
    ParseFormat "%j" sampleClock = some ("j\n")
    ∧ ParseFormat "%r" sampleClock = some ("19:45\n") :=
  ⟨rfl, by decide⟩

/-- Claim C4 as amended: for the unimplemented directives (letters I, j,
p, u, w, z) the dispatch emits nothing and consumes only the percent
sign; the directive letter is left to the next iteration, which copies it
to the output as a literal.  The lowercase r directive falls through to
the uppercase R case and renders padded hour, colon, padded minute. -/
theorem parseFormat_unsupported_directives (clock : ClockInterface) (c : Char) (rest : List Char)
    (hc : c = 'I' ∨ c = 'j' ∨ c = 'p' ∨ c = 'u' ∨ c = 'w' ∨ c = 'z') :
    parseFormatGo clock ('%' :: c :: rest) =
      ((parseFormatGo clock rest).map fun t => String.singleton c ++ t)
    ∧ parseFormatGo clock ('%' :: 'r' :: rest) =
      ((parseFormatGo clock rest).map fun t =>
        formatTwoDigits clock.getHour ++ ":" ++ formatTwoDigits clock.getMin ++ t) := by
  constructor
  · rcases hc with h | h | h | h | h | h <;> subst h <;>
      simp [parseFormatGo, parseFormatGo_literal]
  · simp [parseFormatGo]

/-- Witness for claim C4: at the concrete sample clock, the directive
with letter I renders as the letter I, and the lowercase r directive
renders the hour and minute. -/
theorem parseFormat_unsupported_directives_witness :
    parseFormatGo sampleClock ['%', 'I'] = some ("I")
    ∧ parseFormatGo sampleClock ['%', 'r'] = some ("19:45") := by
  have h := parseFormat_unsupported_directives sampleClock 'I' [] (Or.inl rfl)
  exact ⟨by rw [h.1]; rfl, by rw [h.2]; rfl⟩

/-- Claim C6, counterexample: the plus character is not a recognized
directive letter, yet a percent sign followed by plus does not render as
percent-plus: the plus is elided, leaving only the percent sign. -/
theorem parseFormat_percent_plus_counterexample :
    ParseFormat "%+" sampleClock = some ("%\n") := rfl

/-- Claim C6 as amended: a percent sign in final position is copied
literally; a percent sign followed by an unrecognized character renders
as the percent sign followed by that character processed as an ordinary
literal, which copies it unchanged unless it is the plus character, which
is elided. -/
theorem parseFormat_unknown_directive (clock : ClockInterface) (c : Char) (rest : List Char)
    (hc : ¬ c ∈ ['a', 'A', 'b', 'B', 'd', 'e', 'H', 'I', 'j', 'm', 'M', 'p', 'r', 'R', 'S', 'T', 'u', 'w', 'y', 'Y', 'z', 'Z', '%']) :
    parseFormatGo clock ['%'] = some ("%")
    ∧ parseFormatGo clock ('%' :: c :: rest) =
      ((parseFormatGo clock rest).map fun t =>
        "%" ++ (if c = '+' then "" else String.singleton c) ++ t) := by
  constructor
  · rfl
  · have hd := parseFormatGo_default clock c rest hc
    have hne : c ≠ '%' := by intro h; subst h; exact hc (by decide)
    have hl := parseFormatGo_literal clock c rest hne
    rw [hd, hl, Option.map_map]
    cases parseFormatGo clock rest with
    | none => rfl
    | some t => simp [Function.comp, strAppendAssoc]

/-- Witness for claim C6: a trailing percent sign is copied, and the
unrecognized letter x passes through as percent-x. -/
theorem parseFormat_unknown_directive_witness :
    parseFormatGo sampleClock ['%'] = some ("%")
    ∧ parseFormatGo sampleClock ['%', 'x'] = some ("%x") := by
  have h := parseFormat_unknown_directive sampleClock 'x' [] (by decide)
  exact ⟨h.1, by rw [h.2]; rfl⟩

/-- Claim C10: rendering the short-year directive aborts with the
out-of-range substring exception exactly when the decimal representation
of the year is shorter than 2 characters (years 0 through 9, where the
unsigned size minus 2 wraps around); for a year of at least 10 the
directive totally yields the last two characters of the decimal string of
the year. -/
theorem parseFormat_short_year (clock : ClockInterface) (rest : List Char) :
    (clock.getYear < 10 → parseFormatGo clock ('%' :: 'y' :: rest) = none)
    ∧ (10 ≤ clock.getYear → parseFormatGo clock ('%' :: 'y' :: rest) =
        ((parseFormatGo clock rest).map fun t =>
          (cppToString clock.getYear).drop ((cppToString clock.getYear).length - 2) ++ t)) := by
  constructor
  · intro h
    have h1 := cppToString_length_of_lt clock.getYear h
    simp [parseFormatGo, h1]
  · intro h
    have h1 := cppToString_two_le_of_ge clock.getYear h
    have hne : ¬ (cppToString clock.getYear).length < 2 := by omega
    simp [parseFormatGo, hne]

/-- Witness for claim C10: with year 5 the short-year directive aborts;
with year 1991 it renders 91. -/
theorem parseFormat_short_year_witness :
    parseFormatGo { sampleClock with getYear := 5 } ['%', 'y'] = none
    ∧ parseFormatGo sampleClock ['%', 'y'] = some ("91") := by
  constructor
  · exact (parseFormat_short_year { sampleClock with getYear := 5 } []).1 (by decide)
  · have h := (parseFormat_short_year sampleClock []).2 (by decide)
    rw [h]; rfl

/-- Claim C2: decoding the 8-character spec 01021530 does not succeed.
The spec has no year field, yet the length exceeds 7, so the year slice
substr(8,4) is the empty string and its stoi call raises
std::invalid_argument, which propagates out of ParseDate. -/
theorem parseDate_01021530_raises : ParseDate "01021530" = Except.error () := rfl

/-- Claim C1, counterexample: for the spec xx021530 (month slice not
numeric) the decoder does not return the discriminated null rejection
result; the stoi exception propagates out instead. -/
theorem parseDate_nondigit_counterexample :
    ParseDate "xx021530" = Except.error ()
    ∧ ¬ ParseDate "xx021530" = Except.ok none :=
  ⟨rfl, fun h => Except.noConfusion ((rfl : ParseDate ("xx021530") = Except.error ()).symm.trans h)⟩

/-- Claim C1 as amended: for every spec of length at least 7 in which the
numeric conversion of a required slice (month, day, hour or minute) fails,
ParseDate propagates the conversion exception to its caller instead of
returning the discriminated null result. -/
theorem parseDate_conversion_failure_raises (s : String) (h7 : 7 ≤ s.length)
    (hfail : stoiCpp (substrCpp s 0 2) = Except.error ()
      ∨ stoiCpp (substrCpp s 2 2) = Except.error ()
      ∨ stoiCpp (substrCpp s 4 2) = Except.error ()
      ∨ stoiCpp (substrCpp s 6 2) = Except.error ()) :
    ParseDate s = Except.error () := by
  rw [ParseDate, if_neg (by omega)]
  rcases hfail with hf | hf | hf | hf <;> rw [hf] <;>
    repeat (first | rfl | split)

/-- Witness for claim C1: the spec xx021530 has length at least 7, its
month slice fails conversion, and decoding propagates the exception. -/
theorem parseDate_conversion_failure_raises_witness :
    7 ≤ ("xx021530" : String).length ∧ ParseDate "xx021530" = Except.error () :=
  ⟨by decide, parseDate_conversion_failure_raises "xx021530" (by decide) (Or.inl rfl)⟩

/-- Claim C3, counterexample: a length-7 spec and a length-11 spec are
not accepted (the empty year or second slice makes stoi raise), while a
length-16 spec with a dot at offset 12 is accepted rather than rejected. -/
theorem parseDate_length_counterexample :
    ParseDate "0102153" = Except.error ()
    ∧ ParseDate "01021530202" = Except.error ()
    ∧ ParseDate "010215302025.455" =
        Except.ok (some { tm_sec := 45, tm_min := 30, tm_hour := 15, tm_mday := 2, tm_mon := 0, tm_year := 125 }) :=
  ⟨rfl, rfl, rfl⟩

/-- Claim C3 as amended: specs shorter than 7 return the null rejection
result; every spec of length 7 through 14 raises a conversion exception
(its second slice, and for length 7 also its year slice, is empty), as
does every spec of length 15 or more without a dot at offset 12; a spec
of length at least 15 with a dot at offset 12 whose six slices all
convert is decoded successfully, with no upper length limit. -/
theorem parseDate_length_characterization (s : String) :
    (s.length < 7 → ParseDate s = Except.ok none)
    ∧ (7 ≤ s.length → s.length ≤ 14 → ParseDate s = Except.error ())
    ∧ (15 ≤ s.length → ¬ s.data.get? 12 = some '.' → ParseDate s = Except.error ())
    ∧ (∀ mo d hr mi y se : Int,
        15 ≤ s.length → s.data.get? 12 = some '.' →
        stoiCpp (substrCpp s 0 2) = Except.ok mo →
        stoiCpp (substrCpp s 2 2) = Except.ok d →
        stoiCpp (substrCpp s 4 2) = Except.ok hr →
        stoiCpp (substrCpp s 6 2) = Except.ok mi →
        stoiCpp (substrCpp s 8 4) = Except.ok y →
        stoiCpp (substrCpp s 13 2) = Except.ok se →
        ParseDate s = Except.ok (some
          { tm_sec := if 0 < se ∧ se ≤ 60 then se else 0
          , tm_min := if 0 < mi ∧ mi ≤ 60 then mi else 0
          , tm_hour := if 0 < hr ∧ hr ≤ 24 then hr else 0
          , tm_mday := if 0 < d ∧ d ≤ 31 then d else 0
          , tm_mon := if 0 < mo ∧ mo ≤ 12 then mo - 1 else 0
          , tm_year := y - 1900 })) := by
  refine ⟨?_, ?_, ?_, ?_⟩
  · intro h
    rw [ParseDate, if_pos h]
  · intro h7 h14
    rw [ParseDate, if_neg (by omega)]
    have hsec : ¬ (14 < s.length ∧ s.data.get? 12 = some '.') := fun hh => absurd hh.1 (by omega)
    rw [if_neg hsec]
    rw [show stoiCpp ("") = Except.error () from rfl]
    repeat (first | rfl | split)
  · intro h15 hdot
    rw [ParseDate, if_neg (by omega)]
    have hsec : ¬ (14 < s.length ∧ s.data.get? 12 = some '.') := fun hh => hdot hh.2
    rw [if_neg hsec]
    rw [show stoiCpp ("") = Except.error () from rfl]
    repeat (first | rfl | split)
  · intro mo d hr mi y se h15 hdot hm hd2 hh hmi hy hse
    rw [ParseDate, if_neg (by omega)]
    rw [if_pos (show 7 < s.length by omega)]
    rw [if_pos (show 14 < s.length ∧ s.data.get? 12 = some '.' from ⟨by omega, hdot⟩)]
    rw [hm, hd2, hh, hmi, hy, hse]

/-- Witness for claim C3: the length-7 spec 0102153 satisfies both length
bounds of the middle clause and decoding it raises. -/
theorem parseDate_length_characterization_witness :
    7 ≤ ("0102153" : String).length ∧ ("0102153" : String).length ≤ 14
    ∧ ParseDate "0102153" = Except.error () :=
  ⟨by decide, by decide, (parseDate_length_characterization "0102153").2.1 (by decide) (by decide)⟩

/-- Claim C5: whenever decoding succeeds, each numeric field is applied
to the resulting tm exactly when it lies strictly above 0 and at or below
its maximum (month 12, day 31, hour 24, minute 60, second 60); the month
is stored 0-based; a field of 0 or out of range leaves its component at
the zero default, and the year delta is set unconditionally.  In
particular no range violation produces an error. -/
theorem parseDate_range_policy (s : String) (t : Tm) (h : ParseDate s = Except.ok (some t)) :
    ∃ mo d hr mi y se : Int,
      stoiCpp (substrCpp s 0 2) = Except.ok mo
      ∧ stoiCpp (substrCpp s 2 2) = Except.ok d
      ∧ stoiCpp (substrCpp s 4 2) = Except.ok hr
      ∧ stoiCpp (substrCpp s 6 2) = Except.ok mi
      ∧ stoiCpp (if 7 < s.length then substrCpp s 8 4 else "") = Except.ok y
      ∧ stoiCpp (if 14 < s.length ∧ s.data.get? 12 = some '.' then substrCpp s 13 2 else "") = Except.ok se
      ∧ t.tm_mon = (if 0 < mo ∧ mo ≤ 12 then mo - 1 else 0)
      ∧ t.tm_mday = (if 0 < d ∧ d ≤ 31 then d else 0)
      ∧ t.tm_hour = (if 0 < hr ∧ hr ≤ 24 then hr else 0)
      ∧ t.tm_min = (if 0 < mi ∧ mi ≤ 60 then mi else 0)
      ∧ t.tm_sec = (if 0 < se ∧ se ≤ 60 then se else 0)
      ∧ t.tm_year = y - 1900 := by
  rw [ParseDate] at h
  split at h
  · exact absurd h (by simp)
  · split at h
    · exact absurd h (by simp)
    · rename_i mo hmo
      split at h
      · exact absurd h (by simp)
      · rename_i d hd2
        split at h
        · exact absurd h (by simp)
        · rename_i hr hh
          split at h
          · exact absurd h (by simp)
          · rename_i mi hmi
            split at h
            · exact absurd h (by simp)
            · rename_i y hy
              split at h
              · exact absurd h (by simp)
              · rename_i se hse
                simp only [Except.ok.injEq, Option.some.injEq] at h
                subst h
                exact ⟨mo, d, hr, mi, y, se, hmo, hd2, hh, hmi, hy, hse,
                  rfl, rfl, rfl, rfl, rfl, rfl⟩

/-- Witness for claim C5: the spec 990299992025.99 decodes successfully;
its out-of-range month, hour, minute and second fields (99) are silently
ignored, leaving those components 0, while the in-range day 2 is applied
and the year becomes 125. -/
theorem parseDate_range_policy_witness : ∃ mo d hr mi y se : Int,
    stoiCpp (substrCpp "990299992025.99" 0 2) = Except.ok mo
    ∧ stoiCpp (substrCpp "990299992025.99" 2 2) = Except.ok d
    ∧ stoiCpp (substrCpp "990299992025.99" 4 2) = Except.ok hr
    ∧ stoiCpp (substrCpp "990299992025.99" 6 2) = Except.ok mi
    ∧ stoiCpp (if 7 < ("990299992025.99" : String).length then substrCpp "990299992025.99" 8 4 else "") = Except.ok y
    ∧ stoiCpp (if 14 < ("990299992025.99" : String).length ∧ ("990299992025.99" : String).data.get? 12 = some '.' then substrCpp "990299992025.99" 13 2 else "") = Except.ok se
    ∧ Tm.tm_mon { tm_sec := 0, tm_min := 0, tm_hour := 0, tm_mday := 2, tm_mon := 0, tm_year := 125 } = (if 0 < mo ∧ mo ≤ 12 then mo - 1 else 0)
    ∧ Tm.tm_mday { tm_sec := 0, tm_min := 0, tm_hour := 0, tm_mday := 2, tm_mon := 0, tm_year := 125 } = (if 0 < d ∧ d ≤ 31 then d else 0)
    ∧ Tm.tm_hour { tm_sec := 0, tm_min := 0, tm_hour := 0, tm_mday := 2, tm_mon := 0, tm_year := 125 } = (if 0 < hr ∧ hr ≤ 24 then hr else 0)
    ∧ Tm.tm_min { tm_sec := 0, tm_min := 0, tm_hour := 0, tm_mday := 2, tm_mon := 0, tm_year := 125 } = (if 0 < mi ∧ mi ≤ 60 then mi else 0)
    ∧ Tm.tm_sec { tm_sec := 0, tm_min := 0, tm_hour := 0, tm_mday := 2, tm_mon := 0, tm_year := 125 } = (if 0 < se ∧ se ≤ 60 then se else 0)
    ∧ Tm.tm_year { tm_sec := 0, tm_min := 0, tm_hour := 0, tm_mday := 2, tm_mon := 0, tm_year := 125 } = y - 1900 :=
  parseDate_range_policy "990299992025.99"
    { tm_sec := 0, tm_min := 0, tm_hour := 0, tm_mday := 2, tm_mon := 0, tm_year := 125 } rfl
